import Mathlib

/-!
Verification of the BagelPay python SDK examples and of the request/response
pipeline its specification describes.  The repository ships the example
scripts (src/examples); the core package (bagelpay.client, bagelpay.models,
bagelpay.exceptions) is imported by them but its source is not part of the
tree, so the transport layer, the client-side validation and the data-model
encode/decode are modelled here from the specification text, while every
computation that does appear in the example scripts (API-key resolution,
test-mode flags, page arithmetic, pagination loops) is embedded directly
from those scripts.
-/

/-- Minimal JSON value model used by the transport layer and the
checkout encode/decode round trip. -/
inductive Json where
  | str (s : String)
  | num (n : Int)
  | bool (b : Bool)
  | null
  | arr (elems : List Json)
  | obj (fields : List (String × Json))

/-- Lookup of a key in the field list of a JSON object (first match wins). -/
def jLookup : List (String × Json) → String → Option Json
  | [], _ => none
  | (k, v) :: rest, key => if k == key then some v else jLookup rest key

/-- Modelled from the spec: the exception taxonomy of bagelpay.exceptions
(absent from src/).  `configurationFailure` is the root, pre-network
misconfiguration failure (ConfigurationFailure, raised before any request);
the other four classify HTTP responses. -/
inductive FailureKind where
  | configurationFailure
  | authenticationFailure
  | validationFailure
  | notFoundFailure
  | apiFailure
deriving DecidableEq, Repr

/-- Modelled from the spec: the payload every typed failure carries
(message, optional HTTP status, optional API error code, raw body text). -/
structure BagelFailure where
  kind : FailureKind
  message : String
  statusCode : Option Nat
  errorCode : Option Int
  rawBody : Option String
deriving DecidableEq, Repr

/-- Modelled from the spec: best-effort decode of the API error envelope
`{msg, code}` out of a non-2xx body; `parse` stands for the JSON decoder. -/
def decodeApiError (parse : String → Option Json) (body : String) :
    Option (String × Int) :=
  match parse body with
  | some (.obj fields) =>
    match jLookup fields "msg", jLookup fields "code" with
    | some (.str m), some (.num c) => some (m, c)
    | _, _ => none
  | _ => none

/-- True exactly on HTTP success statuses. -/
def is2xx (status : Nat) : Bool := 200 ≤ status && status < 300

/-- Modelled from the spec: response classification of the transport layer
(bagelpay.client, absent from src/).  Dispatch is by HTTP status with the
spec precedence (auth before not-found before validation before generic),
independent of which operation produced the response: 401/403 raise
authentication, 404 not-found, 400/422 validation, any other non-2xx the
generic API failure. -/
def classifyFailureKind (status : Nat) : FailureKind :=
  if status == 401 || status == 403 then .authenticationFailure
  else if status == 404 then .notFoundFailure
  else if status == 400 || status == 422 then .validationFailure
  else .apiFailure

/-- Modelled from the spec: the error payload attached to a non-2xx
response, with the `{msg, code}` envelope decoded best-effort and the raw
body text always kept. -/
def failureOfStatus (parse : String → Option Json) (status : Nat)
    (body : String) : BagelFailure :=
  ⟨classifyFailureKind status,
   ((decodeApiError parse body).map Prod.fst).getD body, some status,
   (decodeApiError parse body).map Prod.snd, some body⟩

/-- Modelled from the spec: the 2xx half of the transport layer: a body the
decoder accepts is returned decoded; a malformed body raises the generic
API failure carrying the raw text. -/
def handleResponse (parse : String → Option Json) (status : Nat)
    (body : String) : Except BagelFailure Json :=
  if is2xx status then
    match parse body with
    | some j => .ok j
    | none =>
      .error ⟨.apiFailure, "Invalid JSON response", some status, none,
              some body⟩
  else
    .error (failureOfStatus parse status body)

/-- An HTTP request as the transport would send it: method, path and the
query parameters; for this development only list-endpoint queries matter. -/
structure HttpRequest where
  method : String
  path : String
  query : List (String × Int)
deriving DecidableEq, Repr

/-- The BagelFailure raised by the shared client-side pagination check. -/
def pageSizeValidationFailure : BagelFailure :=
  ⟨.validationFailure, "pageSize must be at least 1", none, none, none⟩

/-- Modelled from the spec: the pre-flight pagination check shared by every
list operation of bagelpay.client (absent from src/): a pageSize of 0 or
negative is rejected with a ValidationFailure before any request is built;
otherwise exactly one GET request for the resource page is produced. -/
def listRequest (resource : String) (pageNum pageSize : Int) :
    Except BagelFailure HttpRequest :=
  if pageSize ≤ 0 then .error pageSizeValidationFailure
  else .ok ⟨"GET", resource, [("pageNum", pageNum), ("pageSize", pageSize)]⟩

/-- Product creation payload as the example scripts build it
(bagelpay.models.CreateProductRequest); recurring_interval is nullable. -/
structure CreateProductRequest where
  name : String
  description : String
  price : ℚ
  currency : String
  billing_type : String
  tax_inclusive : Bool
  tax_category : String
  recurring_interval : Option String
  trial_days : Int
deriving DecidableEq, Repr

/-- The BagelFailure raised by the client-side billing-type check. -/
def recurringIntervalValidationFailure : BagelFailure :=
  ⟨.validationFailure,
   "recurring_interval is required for subscription billing", none, none,
   none⟩

/-- Modelled from the spec: the client-side invariant check of
create_product / update_product in bagelpay.client (absent from src/):
billing_type subscription with a null recurring_interval is a
ValidationFailure raised before any network call; any other payload passes
the local check. -/
def validateProductRequest (r : CreateProductRequest) :
    Option BagelFailure :=
  if r.billing_type = "subscription" ∧ r.recurring_interval = none then
    some recurringIntervalValidationFailure
  else none

/-- Modelled from the spec: create_product builds its POST request only
after the local check succeeds. -/
def create_product (r : CreateProductRequest) :
    Except BagelFailure HttpRequest :=
  match validateProductRequest r with
  | some f => .error f
  | none => .ok ⟨"POST", "/api/payments/products/create", []⟩

/-- The concrete product payload built by create_simple_checkout in
src/examples/checkout_payments.py lines 103-113: a single_payment product
carrying the non-null recurring_interval "daily", submitted via
client.create_product on the happy path. -/
def simpleCheckoutProductRequest : CreateProductRequest :=
  ⟨"Product_1234", "One-time premium software license", (9999 : ℚ) / 100,
   "USD", "single_payment", true, "digital_products", some "daily", 0⟩

/-- Client-handle configuration kept by BagelPayClient for its lifetime. -/
structure BagelPayClient where
  api_key : String
  test_mode : Bool
  timeout : Nat
deriving DecidableEq, Repr

/-- Embedded from src/examples/basic_usage.py line 76 (identical in
product_management.py, checkout_payments.py,
subscription_customer_management.py): the python expression
os.getenv(BAGELPAY_TEST_MODE, true).lower() != false, where an absent
variable defaults to the string true. -/
def test_mode_basic_usage (env_test_mode : Option String) : Bool :=
  (env_test_mode.getD "true").toLower != "false"

/-- Embedded from src/examples/pypi_test_usage.py line 70: the python
expression os.getenv(BAGELPAY_TEST_MODE, true).lower() == true. -/
def test_mode_pypi_test_usage (env_test_mode : Option String) : Bool :=
  (env_test_mode.getD "true").toLower == "true"

/-- Key resolution of get_client, embedded from
src/examples/basic_usage.py lines 66-67: the parameter wins when given,
otherwise the BAGELPAY_API_KEY environment variable is read. -/
def get_client_resolve_key (api_key env_api_key : Option String) :
    Option String :=
  match api_key with
  | some k => some k
  | none => env_api_key

/-- The pre-network misconfiguration failure raised by get_client when no
usable API key is found; the example scripts raise python ValueError here,
the ConfigurationFailure of the taxonomy, before any client exists. -/
def missingApiKeyFailure : BagelFailure :=
  ⟨.configurationFailure, "API key is required", none, none, none⟩

/-- Embedded from src/examples/basic_usage.py get_client lines 66-89
(identical in product_management.py and the other example scripts): resolve
the key from the parameter or the environment; raise on a missing or empty
key (python if not api_key); only in the success branch is a
BagelPayClient constructed, so the failure path never produces a client
and hence never sends a request. -/
def get_client (api_key env_api_key env_test_mode : Option String) :
    Except BagelFailure BagelPayClient :=
  match get_client_resolve_key api_key env_api_key with
  | none => .error missingApiKeyFailure
  | some k =>
    if k = "" then .error missingApiKeyFailure
    else .ok ⟨k, test_mode_basic_usage env_test_mode, 30⟩

/-- Embedded from src/examples/product_management.py list_all_products
line 181: total_pages = int(response.total / page_size) + 1, which is
floor division plus one. -/
def list_all_products_total_pages (total page_size : Nat) : Nat :=
  total / page_size + 1

/-- Embedded from src/examples/subscription_customer_management.py
(list_all_subscriptions lines 105 and 127, list_all_customers lines 230
and 250, analyze_subscription_metrics line 288):
total_pages = (response.total + page_size - 1) // page_size. -/
def list_all_subscriptions_total_pages (total page_size : Nat) : Nat :=
  (total + page_size - 1) / page_size

/-- Embedded from src/examples/basic_usage.py list_products line 169:
total_pages = (products_response.total + 9) // 10, a ceiling division for
its fixed pageSize of 10. -/
def list_products_total_pages (total : Nat) : Nat := (total + 9) / 10

/-- Embedded from the while-loops of list_all_products,
list_all_subscriptions and list_all_customers: each iteration fetches page
page_num from the server (`pages`), stops when the page has no items or
when page_num has reached total_pages, and otherwise continues with
page_num + 1.  The first argument of the recursion is fuel bounding the
number of iterations; `some p` means the loop stopped at page p within the
fuel, `none` that the fuel ran out first. -/
def paginationLoop (pages : Nat → List α) (total_pages : Nat) :
    Nat → Nat → Option Nat
  | 0, _ => none
  | fuel + 1, page_num =>
    if (pages page_num).isEmpty then some page_num
    else if total_pages ≤ page_num then some page_num
    else paginationLoop pages total_pages fuel (page_num + 1)

/-- Customer payload as the example scripts build it. -/
structure Customer where
  email : String
deriving DecidableEq, Repr

/-- Checkout payload as the example scripts build it
(bagelpay.models.CheckoutRequest): units is string-encoded on the wire and
metadata is a free-form string-to-string map, modelled as its list of
key/value pairs. -/
structure CheckoutRequest where
  product_id : String
  request_id : String
  units : String
  customer : Option Customer
  success_url : Option String
  metadata : List (String × String)
deriving DecidableEq, Repr

/-- Lookup in a string-to-string map given as key/value pairs. -/
def metaLookup : List (String × String) → String → Option String
  | [], _ => none
  | (k, v) :: rest, key => if k == key then some v else metaLookup rest key

/-- Modelled from the spec: wire encoding of the metadata map as a JSON
object with string values. -/
def encodeMetadata (m : List (String × String)) : Json :=
  .obj (m.map fun kv => (kv.1, .str kv.2))

/-- String-or-null encoding of an optional field. -/
def encodeOptStr : Option String → Json
  | some s => .str s
  | none => .null

/-- Modelled from the spec: wire encoding of a CheckoutRequest by
bagelpay.models (absent from src/): a JSON object carrying product_id,
request_id, the string-encoded units, the optional customer and
success_url, and the metadata map. -/
def encodeCheckoutRequest (r : CheckoutRequest) : Json :=
  .obj [("product_id", .str r.product_id),
        ("request_id", .str r.request_id),
        ("units", .str r.units),
        ("customer",
          match r.customer with
          | some c => .obj [("email", .str c.email)]
          | none => .null),
        ("success_url", encodeOptStr r.success_url),
        ("metadata", encodeMetadata r.metadata)]

/-- Decode of a JSON object back into a string-to-string map; fails when a
value is not a string. -/
def decodeMetaFields : List (String × Json) → Option (List (String × String))
  | [] => some []
  | (k, .str v) :: rest => (decodeMetaFields rest).map fun tl => (k, v) :: tl
  | _ => none

/-- Decode of the metadata JSON value. -/
def decodeMetadata : Json → Option (List (String × String))
  | .obj fields => decodeMetaFields fields
  | _ => none

/-- The fields of the echoed checkout response this development tracks. -/
structure CheckoutEcho where
  product_id : String
  request_id : String
  metadata : List (String × String)
deriving DecidableEq, Repr

/-- Modelled from the spec: decode of the fields the server echoes back on
checkout creation (product_id, request_id, metadata). -/
def decodeCheckoutEcho (j : Json) : Option CheckoutEcho :=
  match j with
  | .obj fields =>
    match jLookup fields "product_id", jLookup fields "request_id",
          jLookup fields "metadata" with
    | some (.str pid), some (.str rid), some m =>
      match decodeMetadata m with
      | some md => some ⟨pid, rid, md⟩
      | none => none
    | _, _, _ => none
  | _ => none

/-- Subscription entity as the example scripts read it
(bagelpay.models.Subscription); timestamps are modelled as naturals. -/
structure Subscription where
  subscription_id : String
  status : String
  product_id : String
  product_name : String
  customer : Customer
  recurring_interval : String
  next_billing_amount : Int
  payment_method : String
  created_at : Nat
  updated_at : Nat
  trial_start : Option Nat
  trial_end : Option Nat
  billing_period_start : Option Nat
  billing_period_end : Option Nat
  cancel_at : Option Nat
  remark : Option String
deriving DecidableEq, Repr

/-- Modelled from the spec: the effect of cancel_subscription on the
subscription entity (server marks for end-of-period cancellation): the
returned entity is the same subscription with cancel_at populated with the
end of the current billing period; every other field, status included, is
unchanged until period end. -/
def cancel_subscription (s : Subscription) (period_end : Nat) :
    Subscription :=
  { s with cancel_at := some period_end }

/-- A subscription-billing product payload with a null recurring_interval,
used to exercise the client-side billing-type check. -/
def subscriptionProductMissingInterval : CreateProductRequest :=
  ⟨"Product_5678", "Monthly SaaS Subscription", 2999 / 100, "USD",
   "subscription", true, "digital_products", none, 7⟩

/-- The concrete checkout payload built by create_simple_checkout in
src/examples/checkout_payments.py lines 119-130. -/
def simpleCheckoutRequest : CheckoutRequest :=
  ⟨"prod_1967229227842506754", "req_20250101_120000", "2",
   some ⟨"andrew@gettrust.ai"⟩, some "https://yoursite.com/success",
   [("order_id", "req_20250101_120000"), ("campaign", "simple_checkout"),
    ("source", "website")]⟩

/-- A concrete active subscription used to exercise the cancel model. -/
def exampleActiveSubscription : Subscription :=
  ⟨"sub_123", "active", "prod_9", "Pro Plan", ⟨"andrew@gettrust.ai"⟩,
   "monthly", 2999, "card", 100, 200, none, none, some 150, some 250, none,
   none⟩

/-- Claim C2: for every list operation (products, transactions,
subscriptions, customers are all instances of the shared `listRequest`)
and every pageSize at most 0, the call fails client-side with the
ValidationFailure and produces no HTTP request (the error result carries
no HttpRequest value, so nothing can be sent). -/
theorem c2_pageSize_rejected_client_side (resource : String)
    (pageNum pageSize : Int) (h : pageSize ≤ 0) :
    listRequest resource pageNum pageSize =
      .error pageSizeValidationFailure ∧
    pageSizeValidationFailure.kind = .validationFailure := by
  refine ⟨?_, rfl⟩
  simp [listRequest, h]

/-- Witness for C2 at the input of the error-handling demo in
src/examples/subscription_customer_management.py line 343: pageNum = 1,
pageSize = 0 on the subscriptions list. -/
theorem c2_pageSize_rejected_client_side_witness :
    (0 : Int) ≤ 0 ∧
    (listRequest "/api/subscriptions/list" 1 0 =
        .error pageSizeValidationFailure ∧
      pageSizeValidationFailure.kind = .validationFailure) :=
  ⟨by decide, c2_pageSize_rejected_client_side "/api/subscriptions/list" 1 0
    (by decide)⟩

/-- Claim C3 counterexample: the product payload built by
create_simple_checkout (src/examples/checkout_payments.py lines 103-113)
has billing_type single_payment together with the non-null
recurring_interval "daily", yet it passes the client-side check and is
submitted as a valid create request on the happy path, refuting the
claimed invariant that recurring_interval is non-null if and only if
billing_type is subscription. -/
theorem c3_counterexample :
    simpleCheckoutProductRequest.billing_type ≠ "subscription" ∧
    simpleCheckoutProductRequest.recurring_interval ≠ none ∧
    validateProductRequest simpleCheckoutProductRequest = none ∧
    create_product simpleCheckoutProductRequest =
      .ok ⟨"POST", "/api/payments/products/create", []⟩ := by
  refine ⟨by decide, by decide, rfl, rfl⟩

/-- Claim C3 amended: a product create or update payload with billing_type
subscription and a null recurring_interval is rejected client-side with a
ValidationFailure before any network call (the error result carries no
HttpRequest); the converse direction of the claimed invariant does not
hold, since non-subscription payloads may carry a non-null
recurring_interval. -/
theorem c3_subscription_requires_interval (r : CreateProductRequest)
    (h1 : r.billing_type = "subscription")
    (h2 : r.recurring_interval = none) :
    create_product r = .error recurringIntervalValidationFailure ∧
    recurringIntervalValidationFailure.kind = .validationFailure := by
  refine ⟨?_, rfl⟩
  simp [create_product, validateProductRequest, h1, h2]

/-- Witness for the amended C3 at a concrete subscription payload with a
null recurring_interval. -/
theorem c3_subscription_requires_interval_witness :
    subscriptionProductMissingInterval.billing_type = "subscription" ∧
    subscriptionProductMissingInterval.recurring_interval = none ∧
    (create_product subscriptionProductMissingInterval =
        .error recurringIntervalValidationFailure ∧
      recurringIntervalValidationFailure.kind = .validationFailure) :=
  ⟨rfl, rfl,
   c3_subscription_requires_interval subscriptionProductMissingInterval rfl
     rfl⟩

/-- Claim C4 counterexample: at total = 10, pageSize = 5 the traversal
helper list_all_products computes 3 pages while the ceiling of
total / pageSize is 2, so the caller-computed page count of that helper is
not ceil(total / pageSize) for every non-negative total. -/
theorem c4_counterexample :
    list_all_products_total_pages 10 5 = 3 ∧ (10 : ℕ) ⌈/⌉ 5 = 2 := by
  refine ⟨rfl, ?_⟩
  rw [Nat.ceilDiv_eq_add_pred_div]

/-- Claim C4 amended: the subscription and customer traversal helpers
compute exactly ceil(total / pageSize) for every non-negative total and
pageSize of at least 1; the products traversal helper computes
floor(total / pageSize) + 1, which equals ceil(total / pageSize) exactly
when pageSize does not divide total; in particular, on a fixture with
total = 25 and pageSize = 10 every helper, list_all_products included,
computes 3 pages. -/
theorem c4_total_pages (total page_size : Nat) (h : 1 ≤ page_size) :
    list_all_subscriptions_total_pages total page_size =
      total ⌈/⌉ page_size ∧
    (list_all_products_total_pages total page_size = total ⌈/⌉ page_size ↔
      ¬ page_size ∣ total) ∧
    list_all_products_total_pages 25 10 = 3 ∧
    list_all_subscriptions_total_pages 25 10 = 3 ∧
    list_products_total_pages 25 = 3 := by
  have hps : 0 < page_size := h
  have hsub : list_all_subscriptions_total_pages total page_size =
      total ⌈/⌉ page_size := by
    rw [Nat.ceilDiv_eq_add_pred_div]
    rfl
  refine ⟨hsub, ?_, rfl, rfl, rfl⟩
  have hmod : total % page_size < page_size := Nat.mod_lt _ hps
  have hdm : page_size * (total / page_size) + total % page_size = total :=
    Nat.div_add_mod total page_size
  rw [Nat.ceilDiv_eq_add_pred_div]
  unfold list_all_products_total_pages
  rw [Nat.dvd_iff_mod_eq_zero]
  by_cases hz : total % page_size = 0
  · have e3 : (page_size - 1) / page_size = 0 :=
      Nat.div_eq_of_lt (by omega)
    have hceil : (total + page_size - 1) / page_size = total / page_size := by
      have e1 : total + page_size - 1 =
          page_size * (total / page_size) + (page_size - 1) := by omega
      rw [e1, Nat.mul_add_div hps, e3]
      exact Nat.add_zero _
    simp [hceil, hz]
  · have e2 : (total % page_size + page_size - 1) / page_size = 1 :=
      Nat.div_eq_of_lt_le (by omega) (by omega)
    have hceil : (total + page_size - 1) / page_size =
        total / page_size + 1 := by
      have e1 : total + page_size - 1 =
          page_size * (total / page_size) +
            (total % page_size + page_size - 1) := by omega
      rw [e1, Nat.mul_add_div hps, e2]
    simp [hceil, hz]

/-- Witness for the amended C4 at the fixture of the claim: total = 25,
pageSize = 10. -/
theorem c4_total_pages_witness :
    1 ≤ 10 ∧
    (list_all_subscriptions_total_pages 25 10 = (25 : ℕ) ⌈/⌉ 10 ∧
      (list_all_products_total_pages 25 10 = (25 : ℕ) ⌈/⌉ 10 ↔
        ¬ (10 : ℕ) ∣ 25) ∧
      list_all_products_total_pages 25 10 = 3 ∧
      list_all_subscriptions_total_pages 25 10 = 3 ∧
      list_products_total_pages 25 = 3) :=
  ⟨by decide, c4_total_pages 25 10 (by decide)⟩

/-- Characterisation lemmas of the status classifier, shared below. -/
theorem classifyFailureKind_auth_iff (status : Nat) :
    classifyFailureKind status = .authenticationFailure ↔
      (status = 401 ∨ status = 403) := by
  unfold classifyFailureKind
  split_ifs <;> simp_all <;> omega

/-- The classifier answers not-found exactly on status 404. -/
theorem classifyFailureKind_notFound_iff (status : Nat) :
    classifyFailureKind status = .notFoundFailure ↔ status = 404 := by
  unfold classifyFailureKind
  split_ifs <;> simp_all <;> omega

/-- The classifier answers validation exactly on statuses 400 and 422. -/
theorem classifyFailureKind_validation_iff (status : Nat) :
    classifyFailureKind status = .validationFailure ↔
      (status = 400 ∨ status = 422) := by
  unfold classifyFailureKind
  split_ifs <;> simp_all <;> omega

/-- The classifier answers the generic API failure exactly on the statuses
outside the three special groups. -/
theorem classifyFailureKind_api_iff (status : Nat) :
    classifyFailureKind status = .apiFailure ↔
      (status ≠ 401 ∧ status ≠ 403 ∧ status ≠ 404 ∧ status ≠ 400 ∧
        status ≠ 422) := by
  unfold classifyFailureKind
  split_ifs <;> simp_all <;> omega

/-- The classifier never answers the pre-network configuration failure. -/
theorem classifyFailureKind_ne_config (status : Nat) :
    classifyFailureKind status ≠ .configurationFailure := by
  unfold classifyFailureKind
  split_ifs <;> simp

/-- Claim C1: for every response to any client operation with a non-2xx
HTTP status (classification is independent of the operation, so a 404 on
any get or cancel by id is included and never becomes the generic API
failure), the transport raises exactly one of the four specialized
failures, dispatched by status with the fixed precedence: 401/403 is the
authentication failure, 404 the not-found failure, 400/422 the validation
failure, and any other non-2xx the generic API failure; the iff
characterisations make the four outcomes mutually exclusive for a given
response, and the pre-network configuration failure never appears. -/
theorem c1_failure_dispatch (parse : String → Option Json) (status : Nat)
    (body : String) (h : is2xx status = false) :
    ∃ f : BagelFailure, handleResponse parse status body = .error f ∧
      (f.kind = .authenticationFailure ↔ (status = 401 ∨ status = 403)) ∧
      (f.kind = .notFoundFailure ↔ status = 404) ∧
      (f.kind = .validationFailure ↔ (status = 400 ∨ status = 422)) ∧
      (f.kind = .apiFailure ↔
        (status ≠ 401 ∧ status ≠ 403 ∧ status ≠ 404 ∧ status ≠ 400 ∧
          status ≠ 422)) ∧
      f.kind ≠ .configurationFailure := by
  refine ⟨failureOfStatus parse status body, ?_, ?_, ?_, ?_, ?_, ?_⟩
  · unfold handleResponse
    rw [if_neg]
    simp [h]
  · exact classifyFailureKind_auth_iff status
  · exact classifyFailureKind_notFound_iff status
  · exact classifyFailureKind_validation_iff status
  · exact classifyFailureKind_api_iff status
  · exact classifyFailureKind_ne_config status

/-- Witness for C1 at a concrete 404 response with an undecodable body. -/
theorem c1_failure_dispatch_witness :
    is2xx 404 = false ∧
    ∃ f : BagelFailure,
      handleResponse (fun _ => none) 404 "missing" = .error f ∧
      (f.kind = .authenticationFailure ↔ ((404 : Nat) = 401 ∨ (404 : Nat) = 403)) ∧
      (f.kind = .notFoundFailure ↔ (404 : Nat) = 404) ∧
      (f.kind = .validationFailure ↔ ((404 : Nat) = 400 ∨ (404 : Nat) = 422)) ∧
      (f.kind = .apiFailure ↔
        ((404 : Nat) ≠ 401 ∧ (404 : Nat) ≠ 403 ∧ (404 : Nat) ≠ 404 ∧
          (404 : Nat) ≠ 400 ∧ (404 : Nat) ≠ 422)) ∧
      f.kind ≠ .configurationFailure :=
  ⟨by decide, c1_failure_dispatch (fun _ => none) 404 "missing" (by decide)⟩

/-- Claim C5: on a response with a 2xx HTTP status, a body the JSON
decoder rejects raises the generic API failure carrying the raw response
text in its rawBody field (the decoder and the handler are total
functions, so no crash is possible), and a body that decodes returns the
decoded value unchanged. -/
theorem c5_2xx_body_handling (parse : String → Option Json) (status : Nat)
    (body : String) (h : is2xx status = true) :
    (parse body = none →
      handleResponse parse status body =
        .error ⟨.apiFailure, "Invalid JSON response", some status, none,
                some body⟩) ∧
    (∀ j, parse body = some j →
      handleResponse parse status body = .ok j) := by
  constructor
  · intro hp
    unfold handleResponse
    rw [if_pos h, hp]
  · intro j hp
    unfold handleResponse
    rw [if_pos h, hp]

/-- Witness for C5 at a concrete 200 response: a decoder rejecting the
body "not json" yields the API failure carrying that raw text, and a
decoder accepting a body returns its value. -/
theorem c5_2xx_body_handling_witness :
    is2xx 200 = true ∧
    ((fun _ => (none : Option Json)) "not json" = none →
      handleResponse (fun _ => none) 200 "not json" =
        .error ⟨.apiFailure, "Invalid JSON response", some 200, none,
                some "not json"⟩) ∧
    (∀ j, (fun _ => (none : Option Json)) "not json" = some j →
      handleResponse (fun _ => none) 200 "not json" = .ok j) :=
  ⟨by decide, c5_2xx_body_handling (fun _ => none) 200 "not json" (by decide)⟩

/-- Encoding the metadata map and decoding it back is the identity on the
key/value pair list. -/
theorem decodeMetaFields_encode (m : List (String × String)) :
    decodeMetaFields (m.map fun kv => (kv.1, Json.str kv.2)) = some m := by
  induction m with
  | nil => rfl
  | cons kv rest ih =>
    obtain ⟨k, v⟩ := kv
    simp [decodeMetaFields, ih]

/-- Claim C6: encoding a CheckoutRequest and decoding the echoed response
preserves product_id, request_id and every supplied metadata key/value
pair (stated through map lookup, so the property is order-irrelevant). -/
theorem c6_checkout_roundtrip (r : CheckoutRequest) :
    ∃ e : CheckoutEcho,
      decodeCheckoutEcho (encodeCheckoutRequest r) = some e ∧
      e.product_id = r.product_id ∧ e.request_id = r.request_id ∧
      (∀ k v, metaLookup r.metadata k = some v →
        metaLookup e.metadata k = some v) := by
  refine ⟨⟨r.product_id, r.request_id, r.metadata⟩, ?_, rfl, rfl,
    fun k v hkv => hkv⟩
  have h1 : decodeCheckoutEcho (encodeCheckoutRequest r) =
      match decodeMetaFields (r.metadata.map fun kv => (kv.1, Json.str kv.2))
        with
      | some md => some ⟨r.product_id, r.request_id, md⟩
      | none => none := rfl
  rw [h1, decodeMetaFields_encode]

/-- Witness for C6 at the concrete checkout payload of
create_simple_checkout in src/examples/checkout_payments.py. -/
theorem c6_checkout_roundtrip_witness :
    ∃ e : CheckoutEcho,
      decodeCheckoutEcho (encodeCheckoutRequest simpleCheckoutRequest) =
        some e ∧
      e.product_id = simpleCheckoutRequest.product_id ∧
      e.request_id = simpleCheckoutRequest.request_id ∧
      (∀ k v, metaLookup simpleCheckoutRequest.metadata k = some v →
        metaLookup e.metadata k = some v) :=
  c6_checkout_roundtrip simpleCheckoutRequest

/-- Claim C7: cancelling a subscription with status active is
non-destructive: the returned entity keeps status (and every other field)
unchanged, while cancel_at becomes newly populated with the end of the
current billing period, a timestamp still in the future. -/
theorem c7_cancel_frame (s : Subscription) (now period_end : Nat)
    (hstatus : s.status = "active") (hnew : s.cancel_at = none)
    (hfuture : now < period_end) :
    (cancel_subscription s period_end).status = s.status ∧
    (cancel_subscription s period_end).status = "active" ∧
    (cancel_subscription s period_end).cancel_at = some period_end ∧
    (cancel_subscription s period_end).cancel_at ≠ s.cancel_at ∧
    now < period_end ∧
    (cancel_subscription s period_end).subscription_id =
      s.subscription_id ∧
    (cancel_subscription s period_end).product_id = s.product_id ∧
    (cancel_subscription s period_end).product_name = s.product_name ∧
    (cancel_subscription s period_end).customer = s.customer ∧
    (cancel_subscription s period_end).recurring_interval =
      s.recurring_interval ∧
    (cancel_subscription s period_end).next_billing_amount =
      s.next_billing_amount ∧
    (cancel_subscription s period_end).payment_method =
      s.payment_method ∧
    (cancel_subscription s period_end).created_at = s.created_at ∧
    (cancel_subscription s period_end).updated_at = s.updated_at ∧
    (cancel_subscription s period_end).trial_start = s.trial_start ∧
    (cancel_subscription s period_end).trial_end = s.trial_end ∧
    (cancel_subscription s period_end).billing_period_start =
      s.billing_period_start ∧
    (cancel_subscription s period_end).billing_period_end =
      s.billing_period_end ∧
    (cancel_subscription s period_end).remark = s.remark := by
  refine ⟨rfl, hstatus, rfl, ?_, hfuture, rfl, rfl, rfl, rfl, rfl, rfl,
    rfl, rfl, rfl, rfl, rfl, rfl, rfl, rfl⟩
  rw [hnew]
  simp [cancel_subscription]

/-- Witness for C7 at a concrete active subscription cancelled at the end
of its current billing period (timestamp 250, seen from now = 200). -/
theorem c7_cancel_frame_witness :
    exampleActiveSubscription.status = "active" ∧
    exampleActiveSubscription.cancel_at = none ∧
    (200 : Nat) < 250 ∧
    ((cancel_subscription exampleActiveSubscription 250).status =
        exampleActiveSubscription.status ∧
      (cancel_subscription exampleActiveSubscription 250).status =
        "active" ∧
      (cancel_subscription exampleActiveSubscription 250).cancel_at =
        some 250 ∧
      (cancel_subscription exampleActiveSubscription 250).cancel_at ≠
        exampleActiveSubscription.cancel_at ∧
      (200 : Nat) < 250 ∧
      (cancel_subscription exampleActiveSubscription 250).subscription_id =
        exampleActiveSubscription.subscription_id ∧
      (cancel_subscription exampleActiveSubscription 250).product_id =
        exampleActiveSubscription.product_id ∧
      (cancel_subscription exampleActiveSubscription 250).product_name =
        exampleActiveSubscription.product_name ∧
      (cancel_subscription exampleActiveSubscription 250).customer =
        exampleActiveSubscription.customer ∧
      (cancel_subscription exampleActiveSubscription 250).recurring_interval =
        exampleActiveSubscription.recurring_interval ∧
      (cancel_subscription exampleActiveSubscription 250).next_billing_amount =
        exampleActiveSubscription.next_billing_amount ∧
      (cancel_subscription exampleActiveSubscription 250).payment_method =
        exampleActiveSubscription.payment_method ∧
      (cancel_subscription exampleActiveSubscription 250).created_at =
        exampleActiveSubscription.created_at ∧
      (cancel_subscription exampleActiveSubscription 250).updated_at =
        exampleActiveSubscription.updated_at ∧
      (cancel_subscription exampleActiveSubscription 250).trial_start =
        exampleActiveSubscription.trial_start ∧
      (cancel_subscription exampleActiveSubscription 250).trial_end =
        exampleActiveSubscription.trial_end ∧
      (cancel_subscription exampleActiveSubscription 250).billing_period_start =
        exampleActiveSubscription.billing_period_start ∧
      (cancel_subscription exampleActiveSubscription 250).billing_period_end =
        exampleActiveSubscription.billing_period_end ∧
      (cancel_subscription exampleActiveSubscription 250).remark =
        exampleActiveSubscription.remark) :=
  ⟨rfl, rfl, by decide,
   c7_cancel_frame exampleActiveSubscription 200 250 rfl rfl (by decide)⟩

/-- Claim C8: when neither the api_key parameter nor the BAGELPAY_API_KEY
environment variable provides a non-empty value, get_client fails with the
pre-network misconfiguration failure (python ValueError, the
ConfigurationFailure root of the taxonomy), distinct from all four
response-driven failure kinds; the error result carries no BagelPayClient,
so no operation and hence no network request can ever be made. -/
theorem c8_missing_key_config_failure
    (api_key env_api_key env_test_mode : Option String)
    (hp : api_key = none ∨ api_key = some "")
    (he : env_api_key = none ∨ env_api_key = some "") :
    get_client api_key env_api_key env_test_mode =
      .error missingApiKeyFailure ∧
    missingApiKeyFailure.kind = .configurationFailure ∧
    missingApiKeyFailure.kind ≠ .authenticationFailure ∧
    missingApiKeyFailure.kind ≠ .validationFailure ∧
    missingApiKeyFailure.kind ≠ .notFoundFailure ∧
    missingApiKeyFailure.kind ≠ .apiFailure := by
  refine ⟨?_, rfl, by decide, by decide, by decide, by decide⟩
  rcases hp with hp | hp <;> rcases he with he | he <;> subst hp <;>
    subst he <;> rfl

/-- Witness for C8 with the parameter omitted and the environment variable
unset. -/
theorem c8_missing_key_config_failure_witness :
    ((none : Option String) = none ∨ (none : Option String) = some "") ∧
    (get_client none none none = .error missingApiKeyFailure ∧
      missingApiKeyFailure.kind = .configurationFailure ∧
      missingApiKeyFailure.kind ≠ .authenticationFailure ∧
      missingApiKeyFailure.kind ≠ .validationFailure ∧
      missingApiKeyFailure.kind ≠ .notFoundFailure ∧
      missingApiKeyFailure.kind ≠ .apiFailure) :=
  ⟨Or.inl rfl,
   c8_missing_key_config_failure none none none (Or.inl rfl) (Or.inl rfl)⟩

/-- Evaluation rule for String.toLower through the character list, used to
compute the python lower() calls on concrete strings. -/
theorem toLower_eq (s : String) : s.toLower = ⟨s.data.map Char.toLower⟩ :=
  String.map_eq _ _

/-- Claim C9 counterexample: with BAGELPAY_TEST_MODE set to the string 1,
get_client in basic_usage.py computes test_mode = true (1 differs from
false) while get_client in pypi_test_usage.py computes test_mode = false
(1 differs from true), so the two flags are not equal for every value of
the variable. -/
theorem c9_counterexample :
    test_mode_basic_usage (some "1") = true ∧
    test_mode_pypi_test_usage (some "1") = false := by
  unfold test_mode_basic_usage test_mode_pypi_test_usage
  rw [Option.getD, toLower_eq]
  constructor <;> decide

/-- Claim C9 amended: the pypi_test_usage flag implies the basic_usage
flag, and the two get_client implementations compute the same test_mode
flag exactly when the variable is unset or its lowercased value is the
string true or the string false; on other values (such as 1 or yes) they
disagree. -/
theorem c9_test_mode_agreement (env : Option String) :
    (test_mode_pypi_test_usage env = true →
      test_mode_basic_usage env = true) ∧
    (test_mode_basic_usage env = test_mode_pypi_test_usage env ↔
      ((env.getD "true").toLower = "true" ∨
        (env.getD "true").toLower = "false")) := by
  unfold test_mode_basic_usage test_mode_pypi_test_usage
  by_cases h1 : (env.getD "true").toLower = "true"
  · rw [h1]
    refine ⟨fun _ => by decide, ?_⟩
    simp
  · by_cases h2 : (env.getD "true").toLower = "false"
    · rw [h2]
      refine ⟨fun hcontra => ?_, ?_⟩
      · exact absurd hcontra (by decide)
      · simp
    · have e1 : ((env.getD "true").toLower == "true") = false := by
        simp [h1]
      have e2 : ((env.getD "true").toLower != "false") = true := by
        simp [h2]
      rw [e1, e2]
      refine ⟨fun hcontra => by simp at hcontra, ?_⟩
      simp [h1, h2]

/-- Witness for the amended C9 at the unset environment variable. -/
theorem c9_test_mode_agreement_witness :
    (test_mode_pypi_test_usage none = true →
      test_mode_basic_usage none = true) ∧
    (test_mode_basic_usage none = test_mode_pypi_test_usage none ↔
      (((none : Option String).getD "true").toLower = "true" ∨
        ((none : Option String).getD "true").toLower = "false")) :=
  c9_test_mode_agreement none

/-- Fuel sufficiency for the pagination loop: as long as the remaining
fuel exceeds the distance from the current page number to total_pages, the
loop reaches one of its two exits before the fuel runs out. -/
theorem paginationLoop_fuel_sufficient (pages : Nat → List α)
    (total_pages : Nat) :
    ∀ fuel page_num, total_pages < page_num + fuel → 0 < fuel →
      (paginationLoop pages total_pages fuel page_num).isSome = true := by
  intro fuel
  induction fuel with
  | zero => intro p _ h0; exact absurd h0 (by omega)
  | succ f ih =>
    intro p hlt _
    unfold paginationLoop
    by_cases hemp : (pages p).isEmpty
    · simp [hemp]
    · by_cases hge : total_pages ≤ p
      · simp [hemp, hge]
      · have hf : 0 < f := by omega
        simp only [hemp, hge, Bool.false_eq_true, if_false]
        exact ih (p + 1) (by omega) hf

/-- Claim C10: with every page reporting the same fixed total and a
page_size of at least 1, the pagination while-loops of the traversal
helpers terminate: starting at page_num = 1, with fuel
max 1 total_pages (so at most that many iterations), the loop reaches an
exit (empty page, or page_num at total_pages) for any server behavior,
under both total-page formulas found in the helpers. -/
theorem c10_pagination_terminates (pages : Nat → List α)
    (total page_size : Nat) (h : 1 ≤ page_size) :
    (paginationLoop pages (list_all_products_total_pages total page_size)
      (max 1 (list_all_products_total_pages total page_size)) 1).isSome =
      true ∧
    (paginationLoop pages
      (list_all_subscriptions_total_pages total page_size)
      (max 1 (list_all_subscriptions_total_pages total page_size))
      1).isSome = true := by
  constructor <;>
    exact paginationLoop_fuel_sufficient _ _ _ 1 (by omega) (by omega)

/-- Witness for C10 on a server with no items at all and the fixture
total = 25, page_size = 10: both loops stop within the fuel. -/
theorem c10_pagination_terminates_witness :
    1 ≤ 10 ∧
    ((paginationLoop (fun _ => ([] : List Nat))
        (list_all_products_total_pages 25 10)
        (max 1 (list_all_products_total_pages 25 10)) 1).isSome = true ∧
      (paginationLoop (fun _ => ([] : List Nat))
        (list_all_subscriptions_total_pages 25 10)
        (max 1 (list_all_subscriptions_total_pages 25 10)) 1).isSome =
        true) :=
  ⟨by decide, c10_pagination_terminates (fun _ => []) 25 10 (by decide)⟩
